import Mathlib

/-!
Shallow embedding of the DRF custom-exception shim
(src/exception/custom_exception.py and src/exception/__init__.py).

The module has two parts:
* ExceptionHandler: classifies an exception and produces a list of
  error records (dicts with keys type / code / message);
* custom_exception_handler: the adapter installed in front of DRF's own
  exception_handler, which rewraps its response body, or synthesizes a
  500 response (reporting to sentry) when DRF produced none.

Modelling choices:
* A DRF validation-error detail is a tree: strings, lists of ErrorDetail
  leaves, or dicts from field name to subtree.  Dicts are modelled as the
  mutually inductive FieldItems (an association list in insertion order,
  matching Python dict iteration order), so that the recursive walk is
  structural and computes definitionally.
* Python exceptions are flattened to the class information the code
  inspects: each class in EXCEPTION_MAP is unrelated (none a subclass of
  another) in the real hierarchy, so an instance matches at most one map
  key; PyClass names that equivalence class.  PyClass.apiException covers
  APIException subclasses matching no map key, for which the default
  "api_error" branch of _get_error_type fires.
* unpack_errors mutates a shared errors list in Python; here the
  accumulator is threaded by value.  The shared fields list is appended
  to before each recursive call and rebound to a fresh empty list
  immediately after it returns, so no mutation made by a callee is ever
  observed by its caller; passing the list by value is observationally
  equivalent.
* Fallible code (exc.detail.items() raising AttributeError when the
  detail is not a dict) is modelled with Option: none is an escaping
  Python exception.
-/

/-- Leaf error of a DRF validation detail: an ErrorDetail carries a
machine code (each.code) and its string form (str(each)). -/
structure ErrorDetail where
  code : String
  text : String
deriving DecidableEq, Repr

mutual
/-- Shape of exc.detail: a plain string, a list of leaf errors, or a
dict from field name to nested detail. -/
inductive ExcDetail where
  | str : String → ExcDetail
  | list : List ErrorDetail → ExcDetail
  | dict : FieldItems → ExcDetail
deriving Repr

/-- Items of a detail dict, in Python insertion order. -/
inductive FieldItems where
  | nil : FieldItems
  | cons : String → ExcDetail → FieldItems → FieldItems
deriving Repr
end

/-- One output record appended to the errors list: the Python dict
with keys "type", "code", "message".  The message holds whatever object
the code stores there (a string for validation leaves and for the 404
branch, exc.detail for the generic branch). -/
structure ErrorRecord where
  type : String
  code : String
  message : ExcDetail
deriving Repr

/-- Runtime class of the exception, flattened to what the isinstance
checks in the source can observe. -/
inductive PyClass where
  | authenticationFailed
  | notAuthenticated
  | permissionDenied
  | customException
  | validationError
  | http404
  | apiException
deriving DecidableEq, Repr

/-- An exception as the handler sees it: its class, the code returned by
exc.get_codes(), and exc.detail. -/
structure Exc where
  cls : PyClass
  code : String
  detail : ExcDetail

/-- ExceptionHandler.DEPTH_MARK. -/
def DEPTH_MARK : String := "::"

/-- ExceptionHandler.EXCEPTION_MAP, as the ordered list of entries the
Python dict iterates in declaration order. -/
def EXCEPTION_MAP : List (PyClass × String) :=
  [(PyClass.authenticationFailed, "authentication_error"),
   (PyClass.notAuthenticated, "authentication_error"),
   (PyClass.permissionDenied, "authentication_error"),
   (PyClass.customException, "api_error"),
   (PyClass.validationError, "validation_error"),
   (PyClass.http404, "invalid_request_error")]

/-- ExceptionHandler._get_error_type: first entry of EXCEPTION_MAP whose
class the exception is an instance of, else "api_error". -/
def get_error_type (exc : Exc) : String :=
  match EXCEPTION_MAP.find? (fun p => exc.cls == p.fst) with
  | some p => p.snd
  | none => "api_error"

/-- ExceptionHandler.unpack_errors(exc_detail, errors, fields).  The
errors accumulator is returned instead of mutated in place; fields is
passed by value (see the aliasing note in the header). -/
def unpack_errors : FieldItems → List ErrorRecord → List String → List ErrorRecord
  | FieldItems.nil, errors, _fields => errors
  | FieldItems.cons field (ExcDetail.dict sub) rest, errors, fields =>
      unpack_errors rest (unpack_errors sub errors (fields ++ [field])) []
  | FieldItems.cons field (ExcDetail.list errs) rest, errors, fields =>
      let field_str := String.intercalate DEPTH_MARK fields
      unpack_errors rest
        (errors ++ errs.map (fun each =>
          { type := "validation_error"
            code :=
              if field_str = "" then
                "validation." ++ field ++ "." ++ each.code
              else
                "validation." ++ field_str ++ DEPTH_MARK ++ field ++ "." ++ each.code
            message := ExcDetail.str each.text }))
        fields
  | FieldItems.cons _ (ExcDetail.str _) rest, errors, fields =>
      unpack_errors rest errors fields

/-- ExceptionHandler._deal_validation_error: fresh errors and fields
accumulators, then unpack_errors over exc.detail.items().  When the
detail is not a dict, .items() raises AttributeError: none. -/
def deal_validation_error (exc : Exc) : Option (List ErrorRecord) :=
  match exc.detail with
  | ExcDetail.dict items => some (unpack_errors items [] [])
  | _ => none

/-- ExceptionHandler._deal_other_error. -/
def deal_other_error (exc : Exc) : List ErrorRecord :=
  [{ type := get_error_type exc, code := exc.code, message := exc.detail }]

/-- ExceptionHandler._deal_http404_error. -/
def deal_http404_error (exc : Exc) : List ErrorRecord :=
  [{ type := get_error_type exc
     code := "general.parameter_unknown"
     message := ExcDetail.str "请求的资源不存在。" }]

/-- ExceptionHandler.handle. -/
def handle (exc : Exc) : Option (List ErrorRecord) :=
  if exc.cls = PyClass.http404 then some (deal_http404_error exc)
  else if exc.cls = PyClass.validationError then deal_validation_error exc
  else some (deal_other_error exc)

/-- Two sequential calls of ExceptionHandler.handle on the same
exception, as a pair. -/
def handle_twice (exc : Exc) : Option (List ErrorRecord) × Option (List ErrorRecord) :=
  (handle exc, handle exc)

/-- One entry of the "errors" array of the rewrapped response body:
details is either the record list from handle (left) or, on the
synthesized-500 path, a plain string (right); object is the parsed
request body, of an arbitrary type. -/
structure ErrorEnvelope (α : Type) where
  details : Sum (List ErrorRecord) String
  object : α
deriving Repr

/-- The HTTP response produced by the adapter: status code and the
"errors" array of the JSON body. -/
structure HttpResponse (α : Type) where
  status : Nat
  errors : List (ErrorEnvelope α)
deriving Repr

/-- Result of one run of custom_exception_handler: its return value
(none models Python returning None) and the side effects performed:
the number of sentry_sdk.capture_exception calls, whether set_rollback
ran, and the number of logger.warning calls. -/
structure AdapterResult (α : Type) where
  response : Option (HttpResponse α)
  sentry_reports : Nat
  rollback_set : Bool
  warning_logs : Nat
deriving Repr

/-- custom_exception_handler(exc, context).  The DRF default handler
and the settings are external: default_response is the status of the
response DRF's exception_handler returned (none when it returned None,
e.g. for database errors), env_flag is settings.ENV_FLAG, and
request_data is context["request"].data.  The outer none models the run
itself raising (handle escaping with an exception). -/
def custom_exception_handler {α : Type} (exc : Exc) (default_response : Option Nat)
    (env_flag : String) (request_data : α) : Option (AdapterResult α) :=
  match default_response with
  | some status =>
      match handle exc with
      | some recs =>
          some { response := some { status := status
                                    errors := [{ details := Sum.inl recs
                                                 object := request_data }] }
                 sentry_reports := 0
                 rollback_set := false
                 warning_logs := 1 }
      | none => none
  | none =>
      if env_flag = "local" ∨ env_flag = "test" then
        some { response := none, sentry_reports := 0, rollback_set := false, warning_logs := 0 }
      else
        some { response := some { status := 500
                                  errors := [{ details := Sum.inr "服务器错误, 请联系管理员。"
                                               object := request_data }] }
               sentry_reports := 1
               rollback_set := true
               warning_logs := 0 }

/-- Number of leaf errors reachable from dict items by descending
nested dicts (elements of list values; string values contribute none). -/
def count_leaf_errors : FieldItems → Nat
  | FieldItems.nil => 0
  | FieldItems.cons _ (ExcDetail.dict sub) rest => count_leaf_errors sub + count_leaf_errors rest
  | FieldItems.cons _ (ExcDetail.list errs) rest => errs.length + count_leaf_errors rest
  | FieldItems.cons _ (ExcDetail.str _) rest => count_leaf_errors rest

/-- Modelled from the claim's words, for comparison with the source
behaviour: whether a detail dict contains a list-valued leaf, i.e. some
entry reachable by dict descent whose value is a list. -/
def contains_list_valued_entry : FieldItems → Bool
  | FieldItems.nil => false
  | FieldItems.cons _ (ExcDetail.list _) _ => true
  | FieldItems.cons _ (ExcDetail.dict sub) rest =>
      contains_list_valued_entry sub || contains_list_valued_entry rest
  | FieldItems.cons _ (ExcDetail.str _) rest => contains_list_valued_entry rest

def pure_unpack : FieldItems → List String → List ErrorRecord
  | FieldItems.nil, _fields => []
  | FieldItems.cons field (ExcDetail.dict sub) rest, fields =>
      pure_unpack sub (fields ++ [field]) ++ pure_unpack rest []
  | FieldItems.cons field (ExcDetail.list errs) rest, fields =>
      let field_str := String.intercalate DEPTH_MARK fields
      errs.map (fun each =>
        { type := "validation_error"
          code :=
            if field_str = "" then
              "validation." ++ field ++ "." ++ each.code
            else
              "validation." ++ field_str ++ DEPTH_MARK ++ field ++ "." ++ each.code
          message := ExcDetail.str each.text }) ++ pure_unpack rest fields
  | FieldItems.cons _ (ExcDetail.str _) rest, fields =>
      pure_unpack rest fields

theorem unpack_errors_spec : ∀ (items : FieldItems) (errors : List ErrorRecord)
      (fields : List String),
    unpack_errors items errors fields = errors ++ pure_unpack items fields
  | FieldItems.nil, errors, fields => by simp [unpack_errors, pure_unpack]
  | FieldItems.cons field (ExcDetail.dict sub) rest, errors, fields => by
      have ihs := unpack_errors_spec sub
      have ihr := unpack_errors_spec rest
      simp [unpack_errors, pure_unpack, ihs, ihr]
  | FieldItems.cons field (ExcDetail.list errs) rest, errors, fields => by
      have ihr := unpack_errors_spec rest
      simp [unpack_errors, pure_unpack, ihr]
  | FieldItems.cons field (ExcDetail.str s) rest, errors, fields => by
      have ihr := unpack_errors_spec rest
      simp [unpack_errors, pure_unpack, ihr]

theorem pure_unpack_length : ∀ (items : FieldItems) (fields : List String),
    (pure_unpack items fields).length = count_leaf_errors items
  | FieldItems.nil, fields => rfl
  | FieldItems.cons field (ExcDetail.dict sub) rest, fields => by
      simp [pure_unpack, count_leaf_errors, pure_unpack_length sub, pure_unpack_length rest]
  | FieldItems.cons field (ExcDetail.list errs) rest, fields => by
      simp [pure_unpack, count_leaf_errors, pure_unpack_length rest]
  | FieldItems.cons field (ExcDetail.str s) rest, fields => by
      simp [pure_unpack, count_leaf_errors, pure_unpack_length rest]

theorem pure_unpack_types : ∀ (items : FieldItems) (fields : List String)
      (r : ErrorRecord), r ∈ pure_unpack items fields → r.type = "validation_error"
  | FieldItems.nil, fields, r => by simp [pure_unpack]
  | FieldItems.cons field (ExcDetail.dict sub) rest, fields, r => by
      simp only [pure_unpack, List.mem_append]
      rintro (h | h)
      · exact pure_unpack_types sub (fields ++ [field]) r h
      · exact pure_unpack_types rest [] r h
  | FieldItems.cons field (ExcDetail.list errs) rest, fields, r => by
      simp only [pure_unpack, List.mem_append, List.mem_map]
      rintro (⟨each, _, h⟩ | h)
      · subst h; rfl
      · exact pure_unpack_types rest fields r h
  | FieldItems.cons field (ExcDetail.str s) rest, fields, r => by
      simp only [pure_unpack]
      exact pure_unpack_types rest fields r

theorem c1_nested (m : String) :
    unpack_errors
      (FieldItems.cons "delivery" (ExcDetail.dict (FieldItems.cons "address"
        (ExcDetail.dict (FieldItems.cons "city_code"
          (ExcDetail.list [{ code := "required", text := m }]) FieldItems.nil))
        FieldItems.nil)) FieldItems.nil) [] []
    = [{ type := "validation_error"
         code := "validation.delivery::address::city_code.required"
         message := ExcDetail.str m }] := rfl

theorem c2_cleared (field g : String) (sub rest : FieldItems) (l : List ErrorDetail)
    (errors : List ErrorRecord) (fields : List String) :
    (unpack_errors (FieldItems.cons field (ExcDetail.dict sub) rest) errors fields
      = unpack_errors rest (unpack_errors sub errors (fields ++ [field])) [])
    ∧ (unpack_errors (FieldItems.cons field (ExcDetail.dict sub)
          (FieldItems.cons g (ExcDetail.list l) rest)) errors fields
      = unpack_errors rest
          (unpack_errors sub errors (fields ++ [field]) ++ l.map (fun each =>
            { type := "validation_error"
              code := "validation." ++ g ++ "." ++ each.code
              message := ExcDetail.str each.text }))
          []) := by
  constructor
  · rfl
  · rfl

/-- C4: for every Http404 exception, handle returns exactly one record
with code "general.parameter_unknown", type "invalid_request_error" and
the fixed localized message, regardless of the exception's own code or
message. -/
theorem c4_notfound (exc : Exc) (h : exc.cls = PyClass.http404) :
    handle exc = some [{ type := "invalid_request_error"
                         code := "general.parameter_unknown"
                         message := ExcDetail.str "请求的资源不存在。" }] := by
  obtain ⟨c, code, detail⟩ := exc
  subst h
  rfl

/-- C5: for a validation error with the flat detail
city_code -> [Error(code="required")], handle yields exactly the record
type "validation_error", code "validation.city_code.required", message
the error's string form. -/
theorem c5_flat (c m : String) :
    handle { cls := PyClass.validationError, code := c
             detail := ExcDetail.dict (FieldItems.cons "city_code"
               (ExcDetail.list [{ code := "required", text := m }]) FieldItems.nil) }
    = some [{ type := "validation_error"
              code := "validation.city_code.required"
              message := ExcDetail.str m }] := rfl

/-- C3: for every exception that is neither Http404 nor ValidationError,
handle returns exactly one record with the exception's own code and
detail as code and message, and type the value of the first entry of
EXCEPTION_MAP (in declaration order) whose class matches, or "api_error"
when no entry matches. -/
theorem c3_other (exc : Exc) (h1 : exc.cls ≠ PyClass.http404)
    (h2 : exc.cls ≠ PyClass.validationError) :
    handle exc = some [{ type := get_error_type exc, code := exc.code, message := exc.detail }]
    ∧ (∀ p, EXCEPTION_MAP.find? (fun q => exc.cls == q.fst) = some p →
        get_error_type exc = p.snd)
    ∧ (EXCEPTION_MAP.find? (fun q => exc.cls == q.fst) = none →
        get_error_type exc = "api_error") := by
  refine ⟨?_, ?_, ?_⟩
  · simp only [handle, deal_other_error]
    rw [if_neg h1, if_neg h2]
  · intro p hp
    simp only [get_error_type, hp]
  · intro hp
    simp only [get_error_type, hp]

/-- C6: when DRF's default handler produced no response, the adapter
returns None (propagating the exception to the platform) when ENV_FLAG
is local or test; otherwise it reports to sentry exactly once, marks the
transaction for rollback, and returns an HTTP 500 whose body is one
errors entry with details the fixed plain string (not a list) and object
the original request body. -/
theorem c6_fallback {α : Type} (exc : Exc) (env_flag : String) (rd : α) :
    (env_flag = "local" ∨ env_flag = "test" →
      custom_exception_handler exc none env_flag rd =
        some { response := none, sentry_reports := 0, rollback_set := false, warning_logs := 0 })
    ∧ (¬(env_flag = "local" ∨ env_flag = "test") →
      custom_exception_handler exc none env_flag rd =
        some { response :=
                 some { status := 500,
                        errors := [{ details := Sum.inr "服务器错误, 请联系管理员。",
                                     object := rd }] },
               sentry_reports := 1, rollback_set := true, warning_logs := 0 }) := by
  constructor
  · intro h
    simp only [custom_exception_handler]
    rw [if_pos h]
  · intro h
    simp only [custom_exception_handler]
    rw [if_neg h]

/-- C7: whenever DRF's default handler produced a response and handle
returns a record list, the adapter replaces the body with a single
errors entry whose details is that list and whose object is the original
request body, unchanged, keeping the response status and logging one
warning. -/
theorem c7_wrap {α : Type} (exc : Exc) (status : Nat) (env_flag : String) (rd : α)
    (recs : List ErrorRecord) (h : handle exc = some recs) :
    custom_exception_handler exc (some status) env_flag rd =
      some { response :=
               some { status := status,
                      errors := [{ details := Sum.inl recs, object := rd }] },
             sentry_reports := 0, rollback_set := false, warning_logs := 1 } := by
  simp only [custom_exception_handler, h]

/-- C8: calling handle twice on the same exception yields identical
output.  The embedding is a pure function of the exception because
_deal_validation_error allocates fresh errors and fields accumulators on
every call; the second conjunct shows in addition that whatever content
sits in the errors accumulator passes through unpack_errors unchanged
and does not affect the records a run appends. -/
theorem c8_idem (exc : Exc) :
    (handle_twice exc).fst = (handle_twice exc).snd
    ∧ ∀ (items : FieldItems) (errors : List ErrorRecord) (fields : List String),
        unpack_errors items errors fields = errors ++ unpack_errors items [] fields := by
  refine ⟨rfl, fun items errors fields => ?_⟩
  rw [unpack_errors_spec items errors fields, unpack_errors_spec items [] fields]
  simp

/-- C10: handle on a validation error returns a record list exactly when
the exception's detail is a dict; for a list or plain-string detail the
per-field iteration (.items()) fails and handle raises instead of
returning. -/
theorem c10_nondict (exc : Exc) (h : exc.cls = PyClass.validationError) :
    ((handle exc).isSome = true ↔ ∃ items, exc.detail = ExcDetail.dict items)
    ∧ (∀ l, exc.detail = ExcDetail.list l → handle exc = none)
    ∧ (∀ s, exc.detail = ExcDetail.str s → handle exc = none) := by
  obtain ⟨c, code, detail⟩ := exc
  simp only at h
  subst h
  cases detail <;> simp [handle, deal_validation_error]

/-- The unpacker emits no records exactly when no leaf error is
reachable. -/
theorem pure_unpack_eq_nil (items : FieldItems) (fields : List String) :
    pure_unpack items fields = [] ↔ count_leaf_errors items = 0 := by
  rw [← pure_unpack_length items fields, List.length_eq_zero]

/-- C9 (amended): handle returns a list of length exactly one for every
non-validation exception; for a validation error with dict detail it
returns one validation_error record per leaf error reachable by dict
descent; and it returns the empty list exactly for a validation error
whose dict detail has no reachable leaf errors (count_leaf_errors = 0),
the only input for which it does so. -/
theorem c9_counts (exc : Exc) :
    (exc.cls ≠ PyClass.validationError → (handle exc).map List.length = some 1)
    ∧ (∀ items, exc.cls = PyClass.validationError → exc.detail = ExcDetail.dict items →
        handle exc = some (unpack_errors items [] [])
        ∧ (unpack_errors items [] []).length = count_leaf_errors items
        ∧ ∀ r ∈ unpack_errors items [] [], r.type = "validation_error")
    ∧ (handle exc = some [] ↔
        exc.cls = PyClass.validationError ∧
        ∃ items, exc.detail = ExcDetail.dict items ∧ count_leaf_errors items = 0) := by
  obtain ⟨c, code, detail⟩ := exc
  have hpu : ∀ (items : FieldItems), unpack_errors items [] [] = pure_unpack items [] := by
    intro items
    rw [unpack_errors_spec]
    simp
  refine ⟨?_, ?_, ?_⟩
  · intro h
    cases c <;> first | rfl | exact absurd rfl h
  · intro items h1 h2
    replace h1 : c = PyClass.validationError := h1
    replace h2 : detail = ExcDetail.dict items := h2
    subst h1
    subst h2
    refine ⟨rfl, ?_, ?_⟩
    · rw [hpu]
      exact pure_unpack_length items []
    · intro r hr
      rw [hpu] at hr
      exact pure_unpack_types items [] r hr
  · cases c <;> cases detail <;>
      simp [handle, deal_validation_error, deal_other_error, deal_http404_error,
        hpu, pure_unpack_eq_nil]

/-- C9 counterexample: the claim's "only for an empty detail dict or one
with no list-valued leaves" clause is too strong: the validation detail
dict mapping "f" to an empty list makes handle return the empty list
although the dict is non-empty and does contain a list-valued leaf. -/
theorem c9_cex :
    handle { cls := PyClass.validationError, code := "invalid",
             detail := ExcDetail.dict (FieldItems.cons "f" (ExcDetail.list []) FieldItems.nil) }
      = some []
    ∧ contains_list_valued_entry (FieldItems.cons "f" (ExcDetail.list []) FieldItems.nil) = true
    ∧ FieldItems.cons "f" (ExcDetail.list []) FieldItems.nil ≠ FieldItems.nil := by
  refine ⟨rfl, rfl, ?_⟩
  intro h
  exact FieldItems.noConfusion h

/-- Witness for C3 at a concrete CustomException subclass instance. -/
theorem c3_other_witness :
    handle { cls := PyClass.customException, code := "courtesy_car.customer.already_exists",
             detail := ExcDetail.str "该客户已存在，并且在保时间重叠" }
      = some [{ type := "api_error", code := "courtesy_car.customer.already_exists",
                message := ExcDetail.str "该客户已存在，并且在保时间重叠" }] :=
  (c3_other { cls := PyClass.customException, code := "courtesy_car.customer.already_exists",
              detail := ExcDetail.str "该客户已存在，并且在保时间重叠" }
    (by decide) (by decide)).1

/-- Witness for C4 at a concrete Http404 instance. -/
theorem c4_notfound_witness :
    handle { cls := PyClass.http404, code := "not_found", detail := ExcDetail.str "gone" }
      = some [{ type := "invalid_request_error", code := "general.parameter_unknown",
                message := ExcDetail.str "请求的资源不存在。" }] :=
  c4_notfound { cls := PyClass.http404, code := "not_found", detail := ExcDetail.str "gone" } rfl

/-- Witness for C6 at ENV_FLAG test and ENV_FLAG production. -/
theorem c6_fallback_witness :
    custom_exception_handler
        { cls := PyClass.apiException, code := "c", detail := ExcDetail.str "d" }
        none "test" (0 : Nat)
      = some { response := none, sentry_reports := 0, rollback_set := false, warning_logs := 0 }
    ∧ custom_exception_handler
        { cls := PyClass.apiException, code := "c", detail := ExcDetail.str "d" }
        none "production" (0 : Nat)
      = some { response :=
                 some { status := 500,
                        errors := [{ details := Sum.inr "服务器错误, 请联系管理员。",
                                     object := (0 : Nat) }] },
               sentry_reports := 1, rollback_set := true, warning_logs := 0 } :=
  ⟨(c6_fallback { cls := PyClass.apiException, code := "c", detail := ExcDetail.str "d" }
      "test" 0).1 (Or.inr rfl),
   (c6_fallback { cls := PyClass.apiException, code := "c", detail := ExcDetail.str "d" }
      "production" 0).2 (by decide)⟩

/-- Witness for C7 at a concrete Http404 exception and a 404 default
response. -/
theorem c7_wrap_witness :
    custom_exception_handler
        { cls := PyClass.http404, code := "not_found", detail := ExcDetail.str "gone" }
        (some 404) "production" (5 : Nat)
      = some { response :=
                 some { status := 404,
                        errors := [{ details := Sum.inl
                                       [{ type := "invalid_request_error",
                                          code := "general.parameter_unknown",
                                          message := ExcDetail.str "请求的资源不存在。" }],
                                     object := (5 : Nat) }] },
               sentry_reports := 0, rollback_set := false, warning_logs := 1 } :=
  c7_wrap { cls := PyClass.http404, code := "not_found", detail := ExcDetail.str "gone" }
    404 "production" 5
    [{ type := "invalid_request_error", code := "general.parameter_unknown",
       message := ExcDetail.str "请求的资源不存在。" }] rfl

/-- Witness for C9 at a generic API error, a one-leaf validation detail
and an empty validation detail dict. -/
theorem c9_counts_witness :
    ((handle { cls := PyClass.customException, code := "c",
               detail := ExcDetail.str "d" }).map List.length = some 1)
    ∧ (handle { cls := PyClass.validationError, code := "invalid",
                detail := ExcDetail.dict (FieldItems.cons "city_code"
                  (ExcDetail.list [{ code := "required", text := "该字段是必填项。" }])
                  FieldItems.nil) }
        = some (unpack_errors (FieldItems.cons "city_code"
            (ExcDetail.list [{ code := "required", text := "该字段是必填项。" }])
            FieldItems.nil) [] [])
       ∧ (unpack_errors (FieldItems.cons "city_code"
            (ExcDetail.list [{ code := "required", text := "该字段是必填项。" }])
            FieldItems.nil) [] []).length
          = count_leaf_errors (FieldItems.cons "city_code"
            (ExcDetail.list [{ code := "required", text := "该字段是必填项。" }])
            FieldItems.nil)
       ∧ ∀ r ∈ unpack_errors (FieldItems.cons "city_code"
            (ExcDetail.list [{ code := "required", text := "该字段是必填项。" }])
            FieldItems.nil) [] [], r.type = "validation_error")
    ∧ handle { cls := PyClass.validationError, code := "invalid",
               detail := ExcDetail.dict FieldItems.nil } = some [] :=
  ⟨(c9_counts { cls := PyClass.customException, code := "c",
                detail := ExcDetail.str "d" }).1 (by decide),
   (c9_counts { cls := PyClass.validationError, code := "invalid",
                detail := ExcDetail.dict (FieldItems.cons "city_code"
                  (ExcDetail.list [{ code := "required", text := "该字段是必填项。" }])
                  FieldItems.nil) }).2.1 _ rfl rfl,
   (c9_counts { cls := PyClass.validationError, code := "invalid",
                detail := ExcDetail.dict FieldItems.nil }).2.2.mpr
     ⟨rfl, FieldItems.nil, rfl, rfl⟩⟩

/-- Witness for C10 at a list-valued detail (handle raises) and a dict
detail (handle returns). -/
theorem c10_nondict_witness :
    handle { cls := PyClass.validationError, code := "invalid",
             detail := ExcDetail.list [{ code := "invalid", text := "无效输入。" }] } = none
    ∧ (handle { cls := PyClass.validationError, code := "invalid",
                detail := ExcDetail.dict FieldItems.nil }).isSome = true :=
  ⟨(c10_nondict { cls := PyClass.validationError, code := "invalid",
                  detail := ExcDetail.list [{ code := "invalid", text := "无效输入。" }] }
      rfl).2.1 _ rfl,
   (c10_nondict { cls := PyClass.validationError, code := "invalid",
                  detail := ExcDetail.dict FieldItems.nil } rfl).1.mpr ⟨FieldItems.nil, rfl⟩⟩
